import Mathlib

/-!
Shallow embedding of the query-construction and response-shaping logic of the
`deployment/lambda-search` Lambda (`app.py` and `filter_builder.py`).

Python values handled by that code (dicts, lists, strings, numbers, `None`)
are modelled by the inductive `Json` below; Python dicts are association
lists kept in insertion order, matching CPython's ordered-dict semantics.
Python string operations used by the source (`split`, `strip`, `lower`,
`len`) are modelled character-by-character so that everything evaluates
inside the kernel.  Code that can raise models the raise as `Except.error`
or, for the per-hit `try` of the response projector, as `Option.none`.
-/

/-- JSON-like values: the Python dict/list/str/number/None values the lambda
manipulates.  Numbers are rationals. -/
inductive Json where
  | null
  | bool (b : Bool)
  | num (q : Rat)
  | str (s : String)
  | arr (elems : List Json)
  | obj (fields : List (String × Json))

/-- Splits a character list at every occurrence of `sep`, keeping empty
pieces, as Python `str.split(sep)` does for a one-character separator. -/
def splitChar (sep : Char) : List Char → List (List Char)
  | [] => [[]]
  | c :: rest =>
    let r := splitChar sep rest
    if c == sep then [] :: r
    else
      match r with
      | [] => [[c]]
      | h :: t => (c :: h) :: t

/-- Python `s.split(sep)` for a one-character separator. -/
def pySplit (s : String) (sep : Char) : List String :=
  (splitChar sep s.data).map String.mk

/-- Python `s.strip()`: removes leading and trailing whitespace. -/
def pyStrip (s : String) : String :=
  String.mk ((((s.data.dropWhile Char.isWhitespace).reverse).dropWhile
    Char.isWhitespace).reverse)

/-- Python `s.lower()` on the ASCII range the source's sentinels use. -/
def pyLower (s : String) : String :=
  String.mk (s.data.map Char.toLower)

/-- Python `len(s)`. -/
def pyLen (s : String) : Nat :=
  s.data.length

/-- Association-list lookup: Python `d.get(k)` with its `None`-as-absent
result modelled by `none`. -/
def alistGet (kvs : List (String × Json)) (k : String) : Option Json :=
  (kvs.find? (fun p => p.1 == k)).map (fun p => p.2)

/-- Python `d.pop(k, None)` restricted to its effect on the dict: the key is
removed wherever it occurs. -/
def popKey (kvs : List (String × Json)) (k : String) : List (String × Json) :=
  kvs.filter (fun p => p.1 != k)

/-- Whether the dict has the key: Python `k in d`. -/
def anyKey (kvs : List (String × Json)) (k : String) : Bool :=
  kvs.any (fun p => p.1 == k)

/-- One step of Python `dict.update`: an existing key keeps its position and
receives the new value, a new key is appended at the end. -/
def setKey (kvs : List (String × Json)) (k : String) (v : Json) :
    List (String × Json) :=
  if anyKey kvs k then kvs.map (fun p => if p.1 == k then (k, v) else p)
  else kvs ++ [(k, v)]

/-- Python `d.update(u)`: the items of `u` applied to `d` in order. -/
def dictUpdate (d : List (String × Json)) (u : List (String × Json)) :
    List (String × Json) :=
  u.foldl (fun acc p => setKey acc p.1 p.2) d

/-- Lookup of a key inside a `Json.obj`. -/
def Json.getKey : Json → String → Option Json
  | .obj kvs, k => alistGet kvs k
  | _, _ => none

/-- A `{"range": {field: {"gte": v}}}` clause as built by `build_date_filter`. -/
def rangeGte (field v : String) : Json :=
  Json.obj [("range", Json.obj [(field, Json.obj [("gte", Json.str v)])])]

/-- A `{"range": {field: {"lte": v}}}` clause as built by `build_date_filter`. -/
def rangeLte (field v : String) : Json :=
  Json.obj [("range", Json.obj [(field, Json.obj [("lte", Json.str v)])])]

/-- A `{"term": {field: v}}` clause as built by `build_date_filter`. -/
def termClause (field v : String) : Json :=
  Json.obj [("term", Json.obj [(field, Json.str v)])]

/-- The sentinel list `['null', 'not available; indisponible']` of
`build_date_filter`. -/
def dateSentinels : List String :=
  ["null", "not available; indisponible"]

/-- The function `build_date_filter` of `filter_builder.py`.  `current_date`
stands for the `datetime.now().strftime` result and is passed explicitly;
absent `start_date`/`end_date` arguments are `none`.  The field names are
plain strings: the handler always supplies the field that the supplied date
needs, so the `None`-field defaults are never observable.  The trailing
`if end_date.lower() != "present"` test of the source reads the value of
`end_date` current at that point, i.e. the reassigned/expanded one, which is
replicated branch by branch here. -/
def build_date_filter (begin_field end_field : String)
    (start_date end_date : Option String) (current_date : String) :
    List Json :=
  let startPart : List Json :=
    match start_date with
    | none => []
    | some sd =>
      if sd != "" && !(dateSentinels.contains (pyLower sd)) then
        let sd :=
          if pyLen sd == 7 then sd ++ "-01"
          else if pyLen sd == 4 then sd ++ "-01-01"
          else sd
        [rangeGte begin_field sd]
      else []
  let endPart : List Json :=
    match end_date with
    | none => []
    | some ed =>
      if ed != "" then
        if dateSentinels.contains (pyLower ed) then
          termClause end_field "null" ::
            (if pyLower ed != "present" then [rangeLte end_field ed] else [])
        else if pyLower ed == "present" then
          rangeLte end_field current_date ::
            (if pyLower current_date != "present" then
              [rangeLte end_field current_date]
            else [])
        else
          let ed :=
            if pyLen ed == 7 then ed ++ "-31"
            else if pyLen ed == 4 then ed ++ "-12-31"
            else ed
          if pyLower ed != "present" then [rangeLte end_field ed] else []
      else []
  startPart ++ endPart

/-- A single `{"wildcard": {field_path: {"value": "*value*"}}}` clause of
`build_wildcard_filter`. -/
def wildcardClause (field_path value : String) : Json :=
  Json.obj [("wildcard", Json.obj [(field_path,
    Json.obj [("value", Json.str ("*" ++ value ++ "*"))])])]

/-- The token list of `build_wildcard_filter`: the comma-split values,
stripped, with empty tokens dropped. -/
def wildcardValueList (values : String) : List String :=
  ((pySplit values ',').map pyStrip).filter (fun v => v != "")

/-- The function `build_wildcard_filter` of `filter_builder.py`.  The clause
comprehension iterates values in the outer loop and field paths in the inner
one. -/
def build_wildcard_filter (field_paths : List String) (values : String) :
    Json :=
  let should_clauses :=
    (wildcardValueList values).flatMap
      (fun value => field_paths.map (fun fp => wildcardClause fp value))
  Json.obj [("bool", Json.obj [("should", Json.arr should_clauses),
    ("minimum_should_match", Json.num 1)])]

/-- The organization-filter step of `lambda_handler`: the raw `org` parameter
(`none` when absent from the event) is tested for Python truthiness only, and
when truthy the wildcard filter is appended to the running filter list. -/
def orgFilterStep (filters : List Json) (org : Option String)
    (field_paths : List String) : List Json :=
  match org with
  | none => filters
  | some s =>
    if s != "" then filters ++ [build_wildcard_filter field_paths s]
    else filters

/-- The metadata-source step of `lambda_handler`: the source calls
`filters.extend` on a dict literal, and Python `list.extend` iterates a dict
by its keys, so the keys are appended as bare strings. -/
def pyExtendWithDict (filters : List Json) (d : List (String × Json)) :
    List Json :=
  filters ++ d.map (fun p => Json.str p.1)

/-- The `metadata_source` branch of `lambda_handler` (the truthiness test and
the `filters.extend` of the term-clause dict). -/
def metadataSourceStep (filters : List Json) (metadata_source : Option String) :
    List Json :=
  match metadata_source with
  | none => filters
  | some v =>
    if v != "" then
      pyExtendWithDict filters
        [("term", Json.obj [("metadata_source.keyword", Json.str v)])]
    else filters

/-- Running value and digit count of the tail of a Python `digitpart`:
decimal digits in which a single underscore may stand between two digits,
as in `1_000`. -/
def digitPartLoop (acc n : Nat) : List Char → Option (Nat × Nat)
  | [] => some (acc, n)
  | '_' :: c :: rest =>
    if c.isDigit then digitPartLoop (10 * acc + (c.toNat - 48)) (n + 1) rest
    else none
  | c :: rest =>
    if c.isDigit then digitPartLoop (10 * acc + (c.toNat - 48)) (n + 1) rest
    else none

/-- A Python `digitpart`: one or more decimal digits with single
underscores allowed between digits only (no leading, trailing or doubled
underscore).  Returns the value together with the number of digits. -/
def parseDigitPart (cs : List Char) : Option (Nat × Nat) :=
  match cs with
  | c :: rest =>
    if c.isDigit then digitPartLoop (c.toNat - 48) 1 rest else none
  | [] => none

/-- The mantissa of the Python `float()` grammar: a `digitpart`, or a point
with a `digitpart` on at least one side (`5.`, `.5`, `5.5`).  Returned as
an integer numerator together with the power-of-ten denominator exponent:
the value is `numerator / 10 ^ exponent`. -/
def parseMantissa (cs : List Char) : Option (Nat × Nat) :=
  match splitChar '.' cs with
  | [i] => (parseDigitPart i).map (fun p => (p.1, 0))
  | [i, f] =>
    if i.isEmpty && f.isEmpty then none
    else if i.isEmpty then
      (parseDigitPart f).map (fun p => (p.1, p.2))
    else if f.isEmpty then
      (parseDigitPart i).map (fun p => (p.1, 0))
    else
      match parseDigitPart i, parseDigitPart f with
      | some pi, some pf => some (pi.1 * 10 ^ pf.2 + pf.1, pf.2)
      | _, _ => none
  | _ => none

/-- The exponent of the Python `float()` grammar: an optional sign followed
by a `digitpart`. -/
def parseExp (cs : List Char) : Option Int :=
  match cs with
  | '-' :: rest => (parseDigitPart rest).map (fun p => -(p.1 : Int))
  | '+' :: rest => (parseDigitPart rest).map (fun p => (p.1 : Int))
  | _ => (parseDigitPart cs).map (fun p => (p.1 : Int))

/-- The unsigned part of Python `float()`: a mantissa with an optional
`e`/`E` decimal exponent.  The rational is assembled with `mkRat` over the
net power of ten, keeping every arithmetic step on `Nat`/`Int` values. -/
def parseFloatCore (cs : List Char) : Option Rat :=
  let mant := cs.takeWhile (fun c => c != 'e' && c != 'E')
  let rest := cs.dropWhile (fun c => c != 'e' && c != 'E')
  let exp : Option Int :=
    match rest with
    | [] => some 0
    | _ :: expPart => parseExp expPart
  match parseMantissa mant, exp with
  | some m, some e =>
    let shift : Int := e - (m.2 : Int)
    if 0 ≤ shift then
      some (mkRat ((m.1 : Int) * ((10 ^ shift.toNat : Nat) : Int)) 1)
    else some (mkRat (m.1 : Int) (10 ^ (-shift).toNat))
  | _, _ => none

/-- Models Python `float(s)` on the stripped tokens the bbox parameter
carries: an optional sign, digits with single underscores between digits,
an optional fractional point, and an optional decimal exponent — e.g.
`-12.5`, `1e1`, `+.5E-2`, `1_0`.  The special results `inf`, `infinity`
and `nan` (either sign, any case) are mapped to parse failure here: the
source parses them, but its range checks then always raise, because no
comparison against `±inf` or `nan` satisfies the bounds, so the set of
accepted bbox strings is unchanged. -/
def parseFloat (s : String) : Option Rat :=
  match s.data with
  | '-' :: rest => (parseFloatCore rest).map (fun q => -q)
  | '+' :: rest => parseFloatCore rest
  | cs => parseFloatCore cs

/-- The supported-relations list of `build_spatial_filter`. -/
def supportedRelations : List String :=
  ["intersects", "disjoint", "within", "contains"]

/-- The relation default of `build_spatial_filter`: only a Python `None`
(an absent event parameter) is replaced by `"intersects"`. -/
def relOrDefault (relation : Option String) : String :=
  match relation with
  | none => "intersects"
  | some r => r

/-- The bbox tokenization of `build_spatial_filter`: split on the bar, strip
each piece, and drop blank pieces (the comprehension filters on the stripped
value's truthiness before calling `float`). -/
def bboxTokens (bbox : String) : List String :=
  ((pySplit bbox '|').map pyStrip).filter (fun t => t != "")

/-- The parsed bbox coordinates; `none` models the `ValueError` some token
raises inside `float()`. -/
def bboxFloats (bbox : String) : Option (List Rat) :=
  (bboxTokens bbox).mapM parseFloat

/-- The geo_shape envelope clause returned by `build_spatial_filter`. -/
def envelopeClause (geo_field : String) (min_lon min_lat max_lon max_lat : Rat)
    (relation : String) : Json :=
  Json.obj [("geo_shape", Json.obj [(geo_field, Json.obj [
    ("shape", Json.obj [("type", Json.str "envelope"),
      ("coordinates", Json.arr [
        Json.arr [Json.num min_lon, Json.num max_lat],
        Json.arr [Json.num max_lon, Json.num min_lat]])]),
    ("relation", Json.str relation)])])]

/-- The function `build_spatial_filter` of `filter_builder.py`; each raised
`ValueError` is modelled by `Except.error` with a short tag. -/
def build_spatial_filter (geo_field : String) (bbox : String)
    (relation : Option String) : Except String Json :=
  let rel := relOrDefault relation
  if !(supportedRelations.contains rel) then .error "unsupported relation"
  else
    match bboxFloats bbox with
    | none => .error "invalid bbox format"
    | some coords =>
      match coords with
      | [min_lon, min_lat, max_lon, max_lat] =>
        if !(decide (-180 ≤ min_lon) && decide (min_lon ≤ 180) &&
             decide (-180 ≤ max_lon) && decide (max_lon ≤ 180)) then
          .error "longitude out of range"
        else if !(decide (-90 ≤ min_lat) && decide (min_lat ≤ 90) &&
             decide (-90 ≤ max_lat) && decide (max_lat ≤ 90)) then
          .error "latitude out of range"
        else .ok (envelopeClause geo_field min_lon min_lat max_lon max_lat rel)
      | _ => .error "expected four coordinates"

/-- The function `add_to_top_of_dict` of `app.py`: a fresh `{key: value}`
dict updated with the original dict, so the new key ends up first.  The
source's guard returns the original dict unchanged when the value is the
Python `None`; the key is always a string literal at the call sites. -/
def add_to_top_of_dict (original : List (String × Json)) (key : String)
    (value : Json) : List (String × Json) :=
  match value with
  | .null => original
  | _ => dictUpdate [(key, value)] original

/-- One backend hit as consumed by `create_api_response_geojson`: the
`_score` entry (`none` when the key is absent) and the `_source` dict. -/
structure Hit where
  score : Option Json
  source : List (String × Json)

/-- A well-formed backend result set: the page of hits under `hits.hits` and
the backend-reported total match count under `hits.total.value`, which the
source never reads. -/
structure SearchResults where
  total : Nat
  hits : List Hit

/-- The per-hit body of `create_api_response_geojson`'s loop, at 1-based
enumeration index `count`.  The result is `none` when the per-hit `try`
raises: after `geometry = source_data.get('coordinates')` the source calls
`source_data.pop('coordinates')` without a default, which raises `KeyError`
exactly when the key is absent, and the surrounding `except` drops the
hit. -/
def projectHit (count : Nat) (hit : Hit) : Option Json :=
  let source_data := popKey hit.source "vector"
  let source_data := add_to_top_of_dict source_data "relevancy"
    (hit.score.getD (Json.str ""))
  let source_data := add_to_top_of_dict source_data "row_num"
    (Json.num (count : Rat))
  if anyKey source_data "coordinates" then
    let geometry := (alistGet source_data "coordinates").getD Json.null
    let props := popKey source_data "coordinates"
    some (Json.obj [
      ("type", Json.str "FeatureCollection"),
      ("features", Json.arr [Json.obj [
        ("type", Json.str "Feature"),
        ("geometry", geometry),
        ("properties", Json.obj props)]])])
  else none

/-- The function `create_api_response_geojson` of `app.py` on a well-formed
backend result: `total_hits` is computed as `len(hits.hits)`, and the items
are the per-hit projections with raising hits skipped. -/
def create_api_response_geojson (rs : SearchResults) : Json :=
  Json.obj [
    ("total_hits", Json.num ((rs.hits.length : Nat) : Rat)),
    ("items", Json.arr ((rs.hits.enumFrom 1).filterMap
      (fun p => projectHit p.1 p.2)))]

/-- The items list of a projected response. -/
def itemsOf (r : Json) : Option (List Json) :=
  match r.getKey "items" with
  | some (.arr xs) => some xs
  | _ => none

/-- The key list of the single feature's properties inside a projected
FeatureCollection. -/
def propertyKeys (fc : Json) : Option (List String) :=
  match fc.getKey "features" with
  | some (.arr [f]) =>
    match f.getKey "properties" with
    | some (.obj kvs) => some (kvs.map (fun p => p.1))
    | _ => none
  | _ => none

/-- The knn clause `semantic_search_neighbors` places under `must`. -/
def knnClause (features : Json) (k : Json) : Json :=
  Json.obj [("knn", Json.obj [("vector",
    Json.obj [("vector", features), ("k", k)])])]

/-- The query body assembled by `semantic_search_neighbors` in `app.py`.
`features` is the embedding value (`Json.null` models the Python `None` a
failed provider call returns, `Json.arr` a vector); `filters` is `none` for
a Python `None`.  The source places a single clause object, not a list,
under `must`, and applies `filters if filters else []` to the filter slot. -/
def semantic_query (features : Json) (k_neighbors : Json) (from_param : Json)
    (sort_param : Json) (filters : Option (List Json)) : Json :=
  Json.obj [
    ("query", Json.obj [
      ("bool", Json.obj [
        ("must", knnClause features k_neighbors),
        ("filter", Json.arr (match filters with
          | some fs => if fs.isEmpty then [] else fs
          | none => []))])]),
    ("size", k_neighbors),
    ("from", from_param),
    ("sort", sort_param)]

/-- The clause sitting under `query.bool.must` of an assembled query. -/
def mustOf (q : Json) : Option Json :=
  ((q.getKey "query").bind (fun b => b.getKey "bool")).bind
    (fun b => b.getKey "must")

/-- Whether a clause object is a knn clause, i.e. has a `knn` key. -/
def isKnnClause (c : Json) : Bool :=
  match c.getKey "knn" with
  | some _ => true
  | none => false

/-- Whether the assembled query carries a knn clause under `must`. -/
def mustHasKnn (q : Json) : Bool :=
  match mustOf q with
  | some c => isKnnClause c
  | none => false

/-- Models Python `int(s)` on a string: surrounding whitespace is stripped,
then an optional sign and a `digitpart` (decimal digits, single
underscores allowed between digits) are required. -/
def pyIntOfString (s : String) : Option Int :=
  match (pyStrip s).data with
  | '-' :: rest => (parseDigitPart rest).map (fun p => -(p.1 : Int))
  | '+' :: rest => (parseDigitPart rest).map (fun p => (p.1 : Int))
  | cs => (parseDigitPart cs).map (fun p => (p.1 : Int))

/-- Models Python `int(x)` for the values a JSON event can carry: an integer
passes through, a float truncates toward zero, a numeric string parses, a
bool maps to 0/1, everything else raises (`TypeError`/`ValueError`),
modelled as `Except.error`. -/
def pyInt : Json → Except String Int
  | .num q => if q.den == 1 then .ok q.num
      else .ok (if 0 ≤ q then q.floor else q.ceil)
  | .str s =>
    match pyIntOfString s with
    | some n => .ok n
    | none => .error "invalid literal for int"
  | .bool b => .ok (if b then 1 else 0)
  | _ => .error "int argument must be a number or string"

/-- The pagination extraction of `lambda_handler`: `from_param` and
`size_param` default to 0 and 10 when the keys are absent, `int(size_param)`
can raise (modelled as `Except.error`, which aborts the whole request), and
the `size = 10` the source assigns when the test hits zero goes to a local
variable that is never read afterwards — the values actually passed on to
the query are the unchanged `from_param` and `size_param`, returned here as
the pair. -/
def handlerPagination (event : List (String × Json)) :
    Except String (Json × Json) :=
  let from_param := (alistGet event "from").getD (Json.num 0)
  let size_param := (alistGet event "size").getD (Json.num 10)
  match pyInt size_param with
  | .error e => .error e
  | .ok _ => .ok (from_param, size_param)

lemma anyKey_append (l₁ l₂ : List (String × Json)) (k : String) :
    anyKey (l₁ ++ l₂) k = (anyKey l₁ k || anyKey l₂ k) := by
  simp [anyKey, List.any_append]

lemma anyKey_map_replace (l : List (String × Json)) (k' : String) (v : Json)
    (k : String) :
    anyKey (l.map (fun p => if p.1 == k' then (k', v) else p)) k =
      anyKey l k := by
  induction l with
  | nil => rfl
  | cons p t ih =>
    by_cases hp : p.1 = k'
    · simp [anyKey, hp] at ih ⊢
      rw [ih]
    · simp [anyKey, hp] at ih ⊢
      rw [ih]

lemma anyKey_setKey (l : List (String × Json)) (k' : String) (v : Json)
    (k : String) :
    anyKey (setKey l k' v) k = (anyKey l k || (k' == k)) := by
  unfold setKey
  split
  · rename_i h
    rw [anyKey_map_replace]
    by_cases hk : k' = k
    · subst hk
      simp [h]
    · simp [hk]
  · rw [anyKey_append]
    simp [anyKey]

lemma anyKey_dictUpdate (u d : List (String × Json)) (k : String) :
    anyKey (dictUpdate d u) k = (anyKey d k || anyKey u k) := by
  induction u generalizing d with
  | nil => simp [dictUpdate, anyKey]
  | cons p t ih =>
    show anyKey (dictUpdate (setKey d p.1 p.2) t) k = _
    rw [ih, anyKey_setKey]
    simp [anyKey, Bool.or_assoc]

lemma anyKey_add_to_top (l : List (String × Json)) (k' : String) (v : Json)
    (k : String) (hk : k' ≠ k) :
    anyKey (add_to_top_of_dict l k' v) k = anyKey l k := by
  unfold add_to_top_of_dict
  split
  · rfl
  · rw [anyKey_dictUpdate]
    simp [anyKey, hk]

lemma anyKey_popKey (l : List (String × Json)) (k' k : String) (hk : k' ≠ k) :
    anyKey (popKey l k') k = anyKey l k := by
  induction l with
  | nil => rfl
  | cons p t ih =>
    by_cases hp : p.1 = k'
    · have h1 : popKey (p :: t) k' = popKey t k' := by
        simp [popKey, hp]
      have h2 : (p.1 == k) = false := by
        simp [hp, hk]
      rw [h1, ih]
      simp [anyKey, h2]
    · have h1 : popKey (p :: t) k' = p :: popKey t k' := by
        simp [popKey, hp]
      rw [h1]
      simp only [anyKey, List.any_cons] at ih ⊢
      rw [ih]

lemma projectHit_cond (i : Nat) (h : Hit) :
    anyKey (add_to_top_of_dict (add_to_top_of_dict (popKey h.source "vector")
      "relevancy" (h.score.getD (Json.str ""))) "row_num"
      (Json.num (i : Rat))) "coordinates" =
    anyKey h.source "coordinates" := by
  rw [anyKey_add_to_top _ _ _ _ (by decide),
    anyKey_add_to_top _ _ _ _ (by decide),
    anyKey_popKey _ _ _ (by decide)]

/-- A hit projects successfully exactly when its source carries a
`coordinates` key: the enumeration index never affects success. -/
lemma projectHit_isSome (i : Nat) (h : Hit) :
    (projectHit i h).isSome = anyKey h.source "coordinates" := by
  simp only [projectHit]
  rw [projectHit_cond]
  cases hC : anyKey h.source "coordinates" <;> simp [hC]

lemma projectHit_eq_none (i : Nat) (h : Hit)
    (hC : anyKey h.source "coordinates" = false) :
    projectHit i h = none := by
  have := projectHit_isSome i h
  rw [hC] at this
  simpa [Option.isSome_iff_exists] using this

lemma filterMap_projectHit_length (n : Nat) (l : List Hit)
    (hl : ∀ h ∈ l, anyKey h.source "coordinates" = true) :
    ((l.enumFrom n).filterMap (fun p => projectHit p.1 p.2)).length =
      l.length := by
  induction l generalizing n with
  | nil => rfl
  | cons h t ih =>
    rw [List.enumFrom_cons, List.filterMap_cons]
    have hh : (projectHit n h).isSome = true := by
      rw [projectHit_isSome]
      exact hl h (by simp)
    obtain ⟨x, hx⟩ := Option.isSome_iff_exists.mp hh
    rw [hx]
    simp only [List.length_cons]
    rw [ih (n + 1) (fun h' hm => hl h' (by simp [hm]))]

/-- C1, counterexample: assembling the Semantic query with `features = None`
(the value a failed embedding-provider call produces) still yields a knn
clause under `must` — the claimed degradation to a filter-only query does
not happen. -/
theorem c1_counterexample :
    mustHasKnn (semantic_query Json.null (Json.num 30) (Json.num 0)
      (Json.arr []) none) = true := rfl

/-- C1, amended: for every Semantic-mode request the assembled query's
`must` slot is always exactly one knn clause carrying the features value —
including a null vector when the embedding provider failed; there is no
filter-only degradation, and a non-empty embedding is carried by exactly
that one clause. -/
theorem c1_must_is_always_the_knn_clause (features k_neighbors from_param
    sort_param : Json) (filters : Option (List Json)) :
    mustOf (semantic_query features k_neighbors from_param sort_param
      filters) = some (knnClause features k_neighbors) := rfl

/-- C1, witness for the amended theorem at a concrete non-empty embedding. -/
theorem c1_witness :
    mustOf (semantic_query (Json.arr [Json.num 1, Json.num 2]) (Json.num 30)
      (Json.num 0) (Json.arr []) (some [termClause "f" "x"])) =
    some (knnClause (Json.arr [Json.num 1, Json.num 2]) (Json.num 30)) :=
  c1_must_is_always_the_knn_clause (Json.arr [Json.num 1, Json.num 2])
    (Json.num 30) (Json.num 0) (Json.arr []) (some [termClause "f" "x"])

/-- C2: evaluation of `build_date_filter` at the claim's inputs — an
end-side sentinel with no start date.  The source emits the exact-null term
AND a second, spurious `lte` range clause against the raw sentinel string
(the trailing range append tests the reassigned `end_date` against
`"present"` only, so it fires for the sentinels too), contradicting the
claimed single-clause output. -/
theorem c2_end_sentinel_emits_term_and_spurious_range :
    build_date_filter "b" "e" none (some "null") "2026-10-12" =
      [termClause "e" "null", rangeLte "e" "null"] ∧
    build_date_filter "b" "e" none (some "NULL") "2026-10-12" =
      [termClause "e" "null", rangeLte "e" "NULL"] ∧
    build_date_filter "b" "e" none (some "not available; indisponible")
        "2026-10-12" =
      [termClause "e" "null", rangeLte "e" "not available; indisponible"] :=
  ⟨rfl, rfl, rfl⟩

/-- C3: evaluation of `build_date_filter` at the claim's input
`start_date = "2020"`, `end_date = "present"`.  The year expansion and the
`present` resolution work as claimed, but the `lte`-today clause is emitted
twice: after `end_date` is reassigned to the current date, the trailing
`if end_date.lower() != "present"` guard can no longer see the word
`present`, so the range is appended a second time — three clauses instead
of the claimed two. -/
theorem c3_present_emits_duplicate_lte :
    build_date_filter "f" "f" (some "2020") (some "present") "2026-10-12" =
      [rangeGte "f" "2020-01-01", rangeLte "f" "2026-10-12",
        rangeLte "f" "2026-10-12"] ∧
    build_date_filter "f" "f" (some "2020") (some "PRESENT") "2026-10-12" =
      [rangeGte "f" "2020-01-01", rangeLte "f" "2026-10-12",
        rangeLte "f" "2026-10-12"] :=
  ⟨rfl, rfl⟩

/-- C4: evaluation of the handler's pagination extraction at the claim's
inputs.  `size = 0` is NOT normalized to 10 (the `size = 10` the source
assigns goes to a local that is never read; the query receives the
unchanged `size_param`), a non-numeric size raises and fails the whole
request instead of falling back to a default, and a negative `from` passes
through unclamped. -/
theorem c4_pagination_not_normalized :
    handlerPagination [("size", Json.num 0)] =
      .ok (Json.num 0, Json.num 0) ∧
    handlerPagination [("size", Json.str "ten")] =
      .error "invalid literal for int" ∧
    handlerPagination [("from", Json.num (-5))] =
      .ok (Json.num (-5), Json.num 10) ∧
    (semantic_query (Json.arr []) (Json.num 0) (Json.num 0)
      (Json.arr []) none).getKey "size" = some (Json.num 0) :=
  ⟨rfl, rfl, rfl, rfl⟩

/-- The backend result set of the C5 counterexample: the backend reports a
total match count of 100 while returning a one-hit page. -/
def c5Results : SearchResults :=
  ⟨100, [⟨some (Json.num 2),
    [("coordinates", Json.str "G"), ("title", Json.str "A")]⟩]⟩

/-- C5, counterexample: the projected response's `total_hits` is the page
length (1), not the backend-reported total match count (100), and the
response carries no `returned_hits` field at all. -/
theorem c5_counterexample :
    (create_api_response_geojson c5Results).getKey "total_hits" =
      some (Json.num 1) ∧
    c5Results.total = 100 ∧
    (1 : Rat) ≠ (100 : Rat) ∧
    (create_api_response_geojson c5Results).getKey "returned_hits" =
      none :=
  ⟨rfl, rfl, by norm_num, rfl⟩

/-- C5, amended: for every backend result set the projected response's
`total_hits` equals the number of hits in the returned page (`len` of
`hits.hits`, ignoring the backend's reported total), there is no
`returned_hits` field, and the items list holds at most as many entries as
the page has hits (hits that fail projection are dropped). -/
theorem c5_total_hits_is_page_length (rs : SearchResults) :
    (create_api_response_geojson rs).getKey "total_hits" =
      some (Json.num ((rs.hits.length : Nat) : Rat)) ∧
    (create_api_response_geojson rs).getKey "returned_hits" = none ∧
    ∃ its, itemsOf (create_api_response_geojson rs) = some its ∧
      its.length ≤ rs.hits.length := by
  refine ⟨rfl, rfl, _, rfl, ?_⟩
  calc ((rs.hits.enumFrom 1).filterMap (fun p => projectHit p.1 p.2)).length
      ≤ (rs.hits.enumFrom 1).length := List.length_filterMap_le _ _
    _ = rs.hits.length := List.enumFrom_length

/-- The hit of the C7 round-trip example: score 1.5, source with a vector,
coordinates, and a title. -/
def c7Hit : Hit :=
  ⟨some (Json.num 1.5),
    [("vector", Json.arr [Json.num 0.1, Json.num 0.2]),
      ("coordinates", Json.obj [("type", Json.str "Point"),
        ("coordinates", Json.arr [Json.num 10, Json.num 20])]),
      ("title", Json.str "T")]⟩

/-- C7, counterexample: projecting the example hit at rank 1 yields the
properties keys in the order `row_num`, `relevancy`, `title` — not the
claimed `relevancy`-first order.  `add_to_top_of_dict` is applied for
`relevancy` first and `row_num` second, so `row_num` ends up on top. -/
theorem c7_counterexample :
    (projectHit 1 c7Hit).bind propertyKeys =
      some ["row_num", "relevancy", "title"] ∧
    ["row_num", "relevancy", "title"] ≠ ["relevancy", "row_num", "title"] :=
  ⟨rfl, by decide⟩

/-- C7, amended: projecting the example hit at rank 1 yields a
FeatureCollection whose geometry is the extracted `coordinates` value and
whose properties are exactly relevancy 1.5, row_num 1 and the title, with
no `vector` or `coordinates` keys — but in the order `row_num` first, then
`relevancy`, then the remaining original fields in their original order;
`row_num` is the 1-based enumeration position of the hit. -/
theorem c7_projection_row_num_first :
    projectHit 1 c7Hit = some (Json.obj [
      ("type", Json.str "FeatureCollection"),
      ("features", Json.arr [Json.obj [
        ("type", Json.str "Feature"),
        ("geometry", Json.obj [("type", Json.str "Point"),
          ("coordinates", Json.arr [Json.num 10, Json.num 20])]),
        ("properties", Json.obj [("row_num", Json.num 1),
          ("relevancy", Json.num 1.5), ("title", Json.str "T")])]])]) ∧
    itemsOf (create_api_response_geojson ⟨1, [c7Hit]⟩) =
      some [(projectHit 1 c7Hit).getD Json.null] :=
  ⟨rfl, rfl⟩

/-- C8, counterexample: an organization value whose every comma token is
empty after trimming is still Python-truthy, so `lambda_handler` appends
the vacuous empty-`should` filter to the filter list instead of omitting
it. -/
theorem c8_counterexample :
    orgFilterStep [] (some " , ") ["a.en", "a.fr"] =
      [Json.obj [("bool", Json.obj [("should", Json.arr []),
        ("minimum_should_match", Json.num 1)])]] ∧
    wildcardValueList " , " = [] :=
  ⟨rfl, rfl⟩

/-- C8, amended: `build_wildcard_filter` splits the raw value on commas,
trims, drops empty tokens, and emits the cross product of value × field
path wrapped as `*value*` (values outer, fields inner); but when every
token is empty while the raw string is non-empty, the caller still appends
the resulting vacuous empty-`should` filter — only an absent or empty raw
value yields no filter. -/
theorem c8_wildcard_cross_product :
    build_wildcard_filter ["a.en", "a.fr"] "x, y" =
      Json.obj [("bool", Json.obj [("should", Json.arr
        [wildcardClause "a.en" "x", wildcardClause "a.fr" "x",
          wildcardClause "a.en" "y", wildcardClause "a.fr" "y"]),
        ("minimum_should_match", Json.num 1)])] ∧
    (∀ field_paths s, wildcardValueList s = [] → s ≠ "" →
      orgFilterStep [] (some s) field_paths =
        [Json.obj [("bool", Json.obj [("should", Json.arr []),
          ("minimum_should_match", Json.num 1)])]]) ∧
    orgFilterStep [] none ["a.en"] = [] ∧
    orgFilterStep [] (some "") ["a.en"] = [] := by
  refine ⟨rfl, ?_, rfl, rfl⟩
  intro field_paths s htok hs
  have hb : (s != "") = true := by simp [hs]
  simp [orgFilterStep, build_wildcard_filter, htok, hb]

/-- C8, witness for the amended theorem at the all-empty-token input `,`. -/
theorem c8_witness :
    orgFilterStep [] (some ",") ["a.en"] =
      [Json.obj [("bool", Json.obj [("should", Json.arr []),
        ("minimum_should_match", Json.num 1)])]] :=
  c8_wildcard_cross_product.2.1 ["a.en"] "," rfl (by decide)

/-- C10: with a non-empty `metadata_source` value the handler grows the
filter list with `list.extend` applied to a dict, which iterates the dict's
keys, so the bare string `term` is appended instead of the term clause and
the metadata-source value itself never reaches the submitted query — the
result is the same for every non-empty value. -/
theorem c10_extend_appends_bare_term_string (filters : List Json)
    (v : String) (hv : v ≠ "") :
    metadataSourceStep filters (some v) = filters ++ [Json.str "term"] := by
  have hb : (v != "") = true := by simp [hv]
  simp [metadataSourceStep, pyExtendWithDict, hb]

/-- C10, witness at a concrete metadata-source value. -/
theorem c10_witness :
    metadataSourceStep [] (some "ccmeo") = [Json.str "term"] :=
  c10_extend_appends_bare_term_string [] "ccmeo" (by decide)

/-- C9: a backend page in which exactly one hit fails projection (its
source lacks the `coordinates` key, the malformed-geometry case) projects
with no exception escaping: the items are exactly the projections of the
good hits before and after the bad one, in their original backend order,
and their count is the page length minus one — the bad hit is simply
dropped.  By `projectHit_isSome`, `anyKey h.source "coordinates"` is
exactly projection success. -/
theorem c9_single_bad_hit_dropped (t : Nat) (pre post : List Hit) (bad : Hit)
    (hbad : anyKey bad.source "coordinates" = false)
    (hpre : ∀ h ∈ pre, anyKey h.source "coordinates" = true)
    (hpost : ∀ h ∈ post, anyKey h.source "coordinates" = true) :
    itemsOf (create_api_response_geojson ⟨t, pre ++ bad :: post⟩) =
      some (((pre.enumFrom 1).filterMap (fun p => projectHit p.1 p.2)) ++
        ((post.enumFrom (pre.length + 2)).filterMap
          (fun p => projectHit p.1 p.2))) ∧
    (((pre.enumFrom 1).filterMap (fun p => projectHit p.1 p.2)) ++
        ((post.enumFrom (pre.length + 2)).filterMap
          (fun p => projectHit p.1 p.2))).length =
      pre.length + post.length := by
  constructor
  · show some (((pre ++ bad :: post).enumFrom 1).filterMap
      (fun p => projectHit p.1 p.2)) = _
    rw [List.enumFrom_append, List.enumFrom_cons, List.filterMap_append]
    have hstep :
        List.filterMap (fun p => projectHit p.1 p.2)
          ((1 + pre.length, bad) ::
            List.enumFrom (1 + pre.length + 1) post) =
        List.filterMap (fun p => projectHit p.1 p.2)
          (List.enumFrom (1 + pre.length + 1) post) :=
      List.filterMap_cons_none (projectHit_eq_none _ _ hbad)
    rw [hstep]
    have heq : 1 + pre.length + 1 = pre.length + 2 := by omega
    rw [heq]
  · rw [List.length_append, filterMap_projectHit_length _ _ hpre,
      filterMap_projectHit_length _ _ hpost]

/-- A projectable hit for the C9 witness. -/
def c9GoodA : Hit :=
  ⟨some (Json.num 1), [("coordinates", Json.str "GA"), ("title", Json.str "A")]⟩

/-- The failing hit for the C9 witness: no `coordinates` key, so the
per-hit processing raises `KeyError` and the hit is skipped. -/
def c9Bad : Hit :=
  ⟨some (Json.num 2), [("title", Json.str "B")]⟩

/-- A second projectable hit for the C9 witness. -/
def c9GoodB : Hit :=
  ⟨some (Json.num 3), [("coordinates", Json.str "GC"), ("title", Json.str "C")]⟩

/-- C9, witness: a three-hit page whose middle hit fails projection keeps
the two good hits, in order, and drops the bad one. -/
theorem c9_witness :
    itemsOf (create_api_response_geojson
        ⟨5, [c9GoodA] ++ c9Bad :: [c9GoodB]⟩) =
      some ((([c9GoodA].enumFrom 1).filterMap
          (fun p => projectHit p.1 p.2)) ++
        (([c9GoodB].enumFrom ([c9GoodA].length + 2)).filterMap
          (fun p => projectHit p.1 p.2))) ∧
    ((([c9GoodA].enumFrom 1).filterMap (fun p => projectHit p.1 p.2)) ++
        (([c9GoodB].enumFrom ([c9GoodA].length + 2)).filterMap
          (fun p => projectHit p.1 p.2))).length =
      [c9GoodA].length + [c9GoodB].length :=
  c9_single_bad_hit_dropped 5 [c9GoodA] [c9GoodB] c9Bad (by decide)
    (by decide) (by decide)

/-- Success shape of `build_spatial_filter`: whenever the tokenization
yields four in-range floats and the (defaulted) relation is supported, the
result is the envelope with corner order
`[[min_lon, max_lat], [max_lon, min_lat]]`. -/
lemma build_spatial_filter_ok_of (geo bbox : String) (rel : Option String)
    (a b c d : Rat) (hf : bboxFloats bbox = some [a, b, c, d])
    (hrel : supportedRelations.contains (relOrDefault rel) = true)
    (hlon : -180 ≤ a ∧ a ≤ 180 ∧ -180 ≤ c ∧ c ≤ 180)
    (hlat : -90 ≤ b ∧ b ≤ 90 ∧ -90 ≤ d ∧ d ≤ 90) :
    build_spatial_filter geo bbox rel =
      .ok (envelopeClause geo a b c d (relOrDefault rel)) := by
  obtain ⟨h1, h2, h3, h4⟩ := hlon
  obtain ⟨h5, h6, h7, h8⟩ := hlat
  have hmem : relOrDefault rel ∈ supportedRelations := by simpa using hrel
  simp [build_spatial_filter, hf, hrel, hmem, h1, h2, h3, h4, h5, h6, h7,
    h8]

/-- C6, counterexample: the bbox string `1|2|3|4|` splits into five
bar-delimited tokens, yet `build_spatial_filter` accepts it — the
comprehension drops blank tokens before counting, so the claimed
"fails exactly when the token count is not 4" is false for the raw
split. -/
theorem c6_counterexample :
    (pySplit "1|2|3|4|" '|').length = 5 ∧
    build_spatial_filter "geo" "1|2|3|4|" none =
      .ok (envelopeClause "geo" 1 2 3 4 "intersects") :=
  ⟨rfl, rfl⟩

/-- C6, amended: with tokens counted after stripping and dropping blank
pieces (as the source's comprehension does), `build_spatial_filter`
succeeds exactly when the (defaulted) relation is supported and the
retained tokens parse as four floats within longitude range [-180, 180]
(positions 1 and 3) and latitude range [-90, 90] (positions 2 and 4); on
success the envelope's first corner is `[min_lon, max_lat]` and its second
`[max_lon, min_lat]`, and a missing relation defaults to `intersects`.
Every failure raises `ValueError` (`InvalidFilterInput`). -/
theorem c6_spatial_characterization :
    (∀ geo bbox rel a b c d,
      bboxFloats bbox = some [a, b, c, d] →
      supportedRelations.contains (relOrDefault rel) = true →
      (-180 ≤ a ∧ a ≤ 180 ∧ -180 ≤ c ∧ c ≤ 180) →
      (-90 ≤ b ∧ b ≤ 90 ∧ -90 ≤ d ∧ d ≤ 90) →
      build_spatial_filter geo bbox rel =
        .ok (envelopeClause geo a b c d (relOrDefault rel))) ∧
    (∀ geo bbox rel,
      (∃ j, build_spatial_filter geo bbox rel = .ok j) ↔
        (supportedRelations.contains (relOrDefault rel) = true ∧
          ∃ a b c d, bboxFloats bbox = some [a, b, c, d] ∧
            (-180 ≤ a ∧ a ≤ 180 ∧ -180 ≤ c ∧ c ≤ 180) ∧
            (-90 ≤ b ∧ b ≤ 90 ∧ -90 ≤ d ∧ d ≤ 90))) ∧
    (∀ geo bbox, build_spatial_filter geo bbox none =
      build_spatial_filter geo bbox (some "intersects")) := by
  refine ⟨build_spatial_filter_ok_of, ?_, fun geo bbox => rfl⟩
  intro geo bbox rel
  constructor
  · rintro ⟨j, hj⟩
    simp only [build_spatial_filter] at hj
    split at hj
    · exact Except.noConfusion hj
    · rename_i hrelb
      have hrel' : supportedRelations.contains (relOrDefault rel) = true := by
        simpa using hrelb
      refine ⟨hrel', ?_⟩
      split at hj
      · exact Except.noConfusion hj
      · rename_i coords hbf
        split at hj
        · rename_i a b c d
          split at hj
          · exact Except.noConfusion hj
          · rename_i hlon
            split at hj
            · exact Except.noConfusion hj
            · rename_i hlat
              refine ⟨a, b, c, d, hbf, ?_, ?_⟩
              · simpa [and_assoc] using hlon
              · simpa [and_assoc] using hlat
        · exact Except.noConfusion hj
  · rintro ⟨hrel, a, b, c, d, hbf, hlon, hlat⟩
    exact ⟨_, build_spatial_filter_ok_of geo bbox rel a b c d hbf hrel
      hlon hlat⟩

/-- C6, witness: a concrete valid bbox accepted with the envelope corner
order of the amended claim. -/
theorem c6_witness :
    build_spatial_filter "g" "10|20|30|40" none =
      .ok (envelopeClause "g" 10 20 30 40 (relOrDefault none)) :=
  c6_spatial_characterization.1 "g" "10|20|30|40" none 10 20 30 40
    (by decide) (by decide) (by norm_num) (by norm_num)
